import Mathlib

/-
Verification of the wpspecdev transfer-matrix optics engine
(src/wpspecdev/em.py, class TmmDriver) against its specification.

The Python source is embedded shallowly: numpy arrays become functions
from indices, complex numbers become Lean's ℂ, and a Python statement
that raises an exception is modelled by an explicit error value.  The
source file as shipped is an early draft whose central methods raise on
their first statements (np.linalg.eye does not exist; several attribute
names are misspelled); the embedding records those raises faithfully so
that the theorems below describe exactly what the shipped code does.
-/

namespace Wpspec

/-- Exceptions a Python evaluation of em.py can raise, together with the
two exception classes named by the specification's error taxonomy
(InvalidPolarizationError and SingularTransferMatrixError); the latter two
are listed here only so that statements about their being raised can be
written — no Python class of either name exists anywhere in the repository. -/
inductive PyError where
  | attributeError (name : String)
  | nameError (name : String)
  | typeError (msg : String)
  | invalidPolarization
  | singularTransferMatrix
  deriving DecidableEq

/-- A 2×2 complex matrix, entry eIJ at row I, column J, mirroring the
D[0][0] .. D[1][1] element assignments of em.py. -/
structure M2 where
  e00 : ℂ
  e01 : ℂ
  e10 : ℂ
  e11 : ℂ

/-- A numpy complex scalar: either a finite complex value, or the
non-finite (nan/inf) scalar that numpy returns from complex division by
zero — numpy emits a RuntimeWarning there and continues; it never raises. -/
inductive NpComplex where
  | val (z : ℂ)
  | nanc

/-- numpy scalar division on complex values: division by zero yields the
non-finite nan result (with a RuntimeWarning), not an exception. -/
noncomputable def npDiv (w z : ℂ) : NpComplex :=
  if z = 0 then NpComplex.nanc else NpComplex.val (w / z)

/-- numpy's principal complex square root, np.sqrt on a complex scalar:
the principal branch z ^ (1/2). -/
noncomputable def npSqrt (z : ℂ) : ℂ := z ^ ((1 : ℂ) / 2)

/-- np.linspace(400e-9, 800e-9, 10) of em.py line 90: ten evenly spaced
wavelengths from 400 nm to 800 nm inclusive (meters). -/
noncomputable def wavelengthGrid (i : ℕ) : ℝ :=
  400 / 10 ^ 9 + i * ((800 / 10 ^ 9 - 400 / 10 ^ 9) / 9)

/-- em.py lines 99–100: np.tile(np.array([1+0j, 1.5+0j, 1+0j]), 10)
reshaped to (10, 3), read row-major: entry (w, l) is element (3*w + l) of
the repeated pattern [1, 1.5, 1], i.e. pattern[(3*w + l) % 3]
(1.5 written as 3/2). -/
noncomputable def defaultRI (w l : ℕ) : ℂ :=
  if (3 * w + l) % 3 = 1 then 3 / 2 else 1

/-- The attributes a TmmDriver instance holds.  The fields assigned by
__init__ (em.py 87–100) are plain fields; the arrays that only a later
method call would assign (_k0_array, _kx_array, _kzl_array, _tm, and the
three spectra) are Option-valued, none standing for a Python attribute
that does not exist yet. -/
structure TmmDriver where
  thickness : ℝ
  number_of_wavelengths : ℕ
  number_of_layers : ℕ
  wavelength_array : ℕ → ℝ
  wavenumber_array : ℕ → ℝ
  thickness_array : List ℝ
  polarization : String
  incident_angle : ℝ
  refractive_index_array : ℕ → ℕ → ℂ
  k0_array : Option (ℕ → ℝ) := none
  kx_array : Option (ℕ → ℂ) := none
  kzl_array : Option (ℕ → ℕ → ℂ) := none
  tm : Option (ℕ → M2) := none
  reflectivity_array : Option (ℕ → ℝ) := none
  transmissivity_array : Option (ℕ → ℝ) := none
  emissivity_array : Option (ℕ → ℝ) := none

/-- TmmDriver.__init__ (em.py 76–100): hard-codes 10 wavelengths on the
400–800 nm grid, 3 layers, thickness_array [0, thickness, 0],
polarization "s", normal incidence, wavenumber_array = 1/wavelength_array,
and the constant air/glass/air refractive indices; it computes no
spectrum and leaves every derived array unassigned. -/
noncomputable def TmmDriver.init (thickness : ℝ) : TmmDriver where
  thickness := thickness
  number_of_wavelengths := 10
  number_of_layers := 3
  wavelength_array := wavelengthGrid
  wavenumber_array := fun i => 1 / wavelengthGrid i
  thickness_array := [0, thickness, 0]
  polarization := "s"
  incident_angle := 0
  refractive_index_array := defaultRI

/-- ref_times_wn of em.py line 143: wavenumber (1/λ, not 2π/λ) times the
refractive index, at wavelength index x and layer index l. -/
noncomputable def TmmDriver.refTimesWn (s : TmmDriver) (x l : ℕ) : ℂ :=
  (s.wavenumber_array x : ℂ) * s.refractive_index_array x l

/-- the _kzl_array entry of em.py line 145:
np.sqrt(ref_times_wn**2 - ref_times_wn*np.sin(incident_angle)**2) —
note the radicand subtracts ref_times_wn · sin²θ, not (ref_times_wn · sin θ)²,
and ref_times_wn is built from 1/λ, not from k0 = 2π/λ. -/
noncomputable def TmmDriver.kzlValue (s : TmmDriver) (x l : ℕ) : ℂ :=
  npSqrt ((s.refTimesWn x l) ^ 2 -
    s.refTimesWn x l * (Real.sin s.incident_angle : ℂ) ^ 2)

/-- the _k0_array entry of em.py line 135: 2π/λ. -/
noncomputable def TmmDriver.k0Value (s : TmmDriver) (i : ℕ) : ℝ :=
  Real.pi * 2 / s.wavelength_array i

/-- the _kx_array entry of em.py line 138: n_incident (layer column 0 of
_refractive_index_array) times sin(incident_angle) times k0. -/
noncomputable def TmmDriver.kxValue (s : TmmDriver) (i : ℕ) : ℂ :=
  s.refractive_index_array i 0 * (Real.sin s.incident_angle : ℂ) *
    (s.k0Value i : ℂ)

/-- Modelled from the spec (section 4.1): the per-layer complex normal
wavevector the wavevector resolver must produce,
kz = sqrt((n_layer · k0)² − kx²), principal branch. -/
noncomputable def specKzFormula (n : ℂ) (k0 : ℝ) (kx : ℂ) : ℂ :=
  npSqrt ((n * (k0 : ℂ)) ^ 2 - kx ^ 2)

/-- _compute_tm (em.py 165–207): its first statement,
M = np.linalg.eye((2,2), dtype=complex), raises AttributeError — the
numpy.linalg module has no attribute eye — so the method never builds a
matrix, never loops over wavelengths or layers, and (even as written
further down) ends in print statements with no return of a matrix. -/
noncomputable def TmmDriver.computeTm (_s : TmmDriver) :
    Except PyError (ℕ → M2) :=
  Except.error (PyError.attributeError "numpy.linalg.eye")

/-- compute_spectrum (em.py 105–158): assigns _k0_array (line 135),
_kx_array (line 138) and _kzl_array (lines 143–145) on the instance, then
calls _compute_tm, whose AttributeError propagates out of the call.  The
pair returned is (the instance as mutated when control leaves the method,
the exception if one escaped).  No reflectivity, transmissivity or
emissivity attribute is ever assigned. -/
noncomputable def TmmDriver.computeSpectrum (s : TmmDriver) :
    TmmDriver × Option PyError :=
  let s1 : TmmDriver :=
    { s with
      k0_array := some s.k0Value
      kx_array := some s.kxValue
      kzl_array := some s.kzlValue }
  match s1.computeTm with
  | Except.error e => (s1, some e)
  | Except.ok m => ({ s1 with tm := some m }, none)

/-- _compute_pm (em.py 281–310): the first expression of the statement
a = -1*ci*self._kxz_array[idx] * self.thickness_array[idx][i] reads
self._kxz_array, an attribute no method ever assigns (the stored arrays
are _kx_array and _kzl_array), so the method raises AttributeError before
any propagation-matrix entry is written.  (Were that name repaired, the
same statement would next fail on thickness_array[idx][i]: thickness_array
is one-dimensional, so the second index subscripts a scalar.) -/
noncomputable def TmmDriver.computePm (_s : TmmDriver) (_idx _i : ℕ) :
    Except PyError M2 :=
  Except.error (PyError.attributeError "_kxz_array")

/-- _compute_dm (em.py 211–276): its first statement,
M = np.linalg.eye((2,2), dtype=complex) at line 233, raises
AttributeError exactly as in _compute_tm, for every polarization value
and every index, before the polarization branch is reached. -/
noncomputable def TmmDriver.computeDm (_s : TmmDriver) (_idx _numLayers : ℕ) :
    Except PyError M2 :=
  Except.error (PyError.attributeError "numpy.linalg.eye")

/-- One iteration of _compute_dm's element-assembly branch (em.py
237–253), the code that would run were line 233 repaired: D starts as the
zero matrix; for polarization "s" the rows [1, 1] and
[n·cos θ, −n·cos θ] are assigned from the incident angle and the one
layer's refractive index n; for "p" the two cosine entries are assigned
and then the read self.refractive_index_array (missing the leading
underscore of the real attribute _refractive_index_array) raises
AttributeError; for any other value the branch prints
"needs polarization s or p" and falls through, leaving D the zero
matrix — nothing is raised and execution continues. -/
noncomputable def dLoopBody (pol : String) (n cosTheta : ℂ) :
    Except PyError M2 :=
  if pol = "s" then
    Except.ok ⟨1, 1, cosTheta * n, -1 * cosTheta * n⟩
  else if pol = "p" then
    Except.error (PyError.attributeError "refractive_index_array")
  else
    Except.ok ⟨0, 0, 0, 0⟩

/-- em.py line 254: D_inv = 1/((D[0][0]*D[1][1])-(D[0][1]*D[1][0])) — the
reciprocal of the determinant, taken with no singularity guard; at a
singular D numpy's division by zero produces its non-finite value and
execution continues. -/
noncomputable def dInvScalar (D : M2) : NpComplex :=
  npDiv 1 (D.e00 * D.e11 - D.e01 * D.e10)

/-- the driver instance TmmDriver(100e-9), the concrete input at which the
shipped code is evaluated below. -/
noncomputable def sampleDriver : TmmDriver := TmmDriver.init (100 / 10 ^ 9)

lemma npSqrt_ofReal (r : ℝ) (h : 0 ≤ r) :
    npSqrt (r : ℂ) = (Real.sqrt r : ℂ) := by
  unfold npSqrt
  have h2 : ((1 : ℂ) / 2) = (((1 : ℝ) / 2 : ℝ) : ℂ) := by norm_num
  rw [h2, ← Complex.ofReal_cpow h, Real.sqrt_eq_rpow]

/-- C10: after TmmDriver.__init__(thickness), thickness_array is
[0, thickness, 0] (semi-infinite boundaries at zero), the wavelength grid
is the fixed 10-point 400–800 nm linspace, polarization is "s" and the
incidence normal regardless of the input, and none of reflectivity_array,
transmissivity_array, emissivity_array exists: construction alone computes
no spectrum. -/
theorem C10_init_state (t : ℝ) :
    (TmmDriver.init t).thickness_array = [0, t, 0] ∧
    (TmmDriver.init t).number_of_wavelengths = 10 ∧
    (TmmDriver.init t).wavelength_array = wavelengthGrid ∧
    wavelengthGrid 0 = 400 / 10 ^ 9 ∧
    wavelengthGrid 9 = 800 / 10 ^ 9 ∧
    (TmmDriver.init t).polarization = "s" ∧
    (TmmDriver.init t).incident_angle = 0 ∧
    (TmmDriver.init t).reflectivity_array = none ∧
    (TmmDriver.init t).transmissivity_array = none ∧
    (TmmDriver.init t).emissivity_array = none := by
  refine ⟨rfl, rfl, rfl, ?_, ?_, rfl, rfl, rfl, rfl, rfl⟩
  · norm_num [wavelengthGrid]
  · norm_num [wavelengthGrid]

/-- C2: the shipped compute_spectrum can never establish
R + T + emissivity = 1 — for every driver state it raises AttributeError
(np.linalg.eye does not exist) out of _compute_tm, and the reflectivity,
transmissivity and emissivity attributes are exactly as before the call:
no spectra are ever computed. -/
theorem C2_no_spectra_computed (s : TmmDriver) :
    (s.computeSpectrum).2 = some (PyError.attributeError "numpy.linalg.eye") ∧
    (s.computeSpectrum).1.reflectivity_array = s.reflectivity_array ∧
    (s.computeSpectrum).1.transmissivity_array = s.transmissivity_array ∧
    (s.computeSpectrum).1.emissivity_array = s.emissivity_array :=
  ⟨rfl, rfl, rfl, rfl⟩

/-- C3: no reflection amplitude r = M[1,0]/M[0,0] and no transmission
amplitude t = 1/M[0,0] is ever extracted: _compute_tm fails at its first
statement with AttributeError, so no composed matrix M and no _tm
attribute ever exists on the instance. -/
theorem C3_no_amplitude_extraction :
    sampleDriver.computeTm
      = Except.error (PyError.attributeError "numpy.linalg.eye") ∧
    (sampleDriver.computeSpectrum).1.tm = none :=
  ⟨rfl, rfl⟩

/-- C5: no propagation matrix diag(exp(-i kz d), exp(+i kz d)) is ever
built: _compute_pm raises AttributeError on the nonexistent attribute
_kxz_array for every wavelength index and layer index, so neither the
finite layer nor (a fortiori) the semi-infinite boundary layers receive
one. -/
theorem C5_pm_never_built (idx i : ℕ) :
    sampleDriver.computePm idx i
      = Except.error (PyError.attributeError "_kxz_array") :=
  rfl

/-- C6: the element-assembly branch of _compute_dm builds, for
polarization "s", exactly the claimed rows [1, 1] and
[n cos θ, −n cos θ]; for polarization "p" it raises AttributeError on the
misspelled read self.refractive_index_array instead of building the
swapped-role matrix. -/
theorem C6_dmatrix_branches (n c : ℂ) :
    dLoopBody "s" n c = Except.ok ⟨1, 1, c * n, -1 * c * n⟩ ∧
    dLoopBody "p" n c
      = Except.error (PyError.attributeError "refractive_index_array") :=
  ⟨rfl, rfl⟩

/-- C7 counterexample: on a configuration with polarization "q" matrix
building does not fail with an InvalidPolarizationError: _compute_dm
raises AttributeError at np.linalg.eye exactly as for valid polarizations,
and its polarization branch, taken by itself, silently returns the zero
matrix for "q" — no InvalidPolarizationError is ever raised. -/
theorem C7_counterexample :
    ({ TmmDriver.init (100 / 10 ^ 9) with polarization := "q" }
        : TmmDriver).computeDm 0 3
      = Except.error (PyError.attributeError "numpy.linalg.eye") ∧
    dLoopBody "q" 1 1 = Except.ok ⟨0, 0, 0, 0⟩ ∧
    dLoopBody "q" 1 1 ≠ Except.error PyError.invalidPolarization := by
  refine ⟨rfl, rfl, ?_⟩
  intro h
  exact nomatch h

/-- C7 amended: a polarization value other than "s" and "p" is silently
passed over by _compute_dm's branch: it prints a message and leaves D the
zero matrix, raising nothing, and no InvalidPolarizationError exists in
the code. -/
theorem C7_invalid_polarization_falls_through (pol : String) (n c : ℂ)
    (hs : pol ≠ "s") (hp : pol ≠ "p") :
    dLoopBody pol n c = Except.ok ⟨0, 0, 0, 0⟩ := by
  simp [dLoopBody, hs, hp]

theorem C7_invalid_polarization_falls_through_witness :
    ("x" : String) ≠ "s" ∧ ("x" : String) ≠ "p" ∧
    dLoopBody "x" 1 1 = Except.ok ⟨0, 0, 0, 0⟩ :=
  ⟨by decide, by decide,
    C7_invalid_polarization_falls_through "x" 1 1 (by decide) (by decide)⟩

/-- C8 counterexample: a numerically singular matrix does not make the
computation fail with a SingularTransferMatrixError: the unguarded
reciprocal-of-determinant at em.py line 254 propagates numpy's
non-finite division result as a value, and _compute_dm raises only the
AttributeError from np.linalg.eye, never SingularTransferMatrixError. -/
theorem C8_counterexample :
    dInvScalar ⟨1, 1, 1, 1⟩ = NpComplex.nanc ∧
    sampleDriver.computeDm 5 3
      ≠ Except.error PyError.singularTransferMatrix := by
  constructor
  · unfold dInvScalar npDiv
    rw [if_pos (show (M2.mk 1 1 1 1).e00 * (M2.mk 1 1 1 1).e11 -
      (M2.mk 1 1 1 1).e01 * (M2.mk 1 1 1 1).e10 = 0 by norm_num)]
  · intro h
    exact nomatch (Except.error.inj h)

/-- C8 amended: the reciprocal of the determinant at em.py line 254 is
taken with no singularity guard: whenever the determinant is zero it
propagates numpy's non-finite division-by-zero value instead of raising
anything. -/
theorem C8_unguarded_singular_inverse (D : M2)
    (h : D.e00 * D.e11 - D.e01 * D.e10 = 0) :
    dInvScalar D = NpComplex.nanc := by
  unfold dInvScalar npDiv
  rw [if_pos h]

lemma sampleDriver_angle : sampleDriver.incident_angle = 0 := rfl

lemma sampleDriver_wavenumber0 : sampleDriver.wavenumber_array 0 = 2500000 := by
  show (1 : ℝ) / wavelengthGrid 0 = 2500000
  norm_num [wavelengthGrid]

lemma sampleDriver_ri00 : sampleDriver.refractive_index_array 0 0 = 1 := by
  show defaultRI 0 0 = 1
  norm_num [defaultRI]

lemma sampleDriver_kzl00 : sampleDriver.kzlValue 0 0 = ((2500000 : ℝ) : ℂ) := by
  unfold TmmDriver.kzlValue TmmDriver.refTimesWn
  rw [sampleDriver_wavenumber0, sampleDriver_ri00, sampleDriver_angle,
    Real.sin_zero]
  have h : (((2500000 : ℝ) : ℂ) * 1) ^ 2 -
      ((2500000 : ℝ) : ℂ) * 1 * ((0 : ℝ) : ℂ) ^ 2
      = ((((2500000 : ℝ) ^ 2 : ℝ)) : ℂ) := by
    push_cast
    ring
  rw [h, npSqrt_ofReal _ (by positivity), Real.sqrt_sq (by norm_num)]

lemma sampleDriver_k0_0 : sampleDriver.k0Value 0 = 5000000 * Real.pi := by
  show Real.pi * 2 / wavelengthGrid 0 = 5000000 * Real.pi
  rw [show wavelengthGrid 0 = 1 / 2500000 by norm_num [wavelengthGrid]]
  field_simp
  ring

lemma sampleDriver_kx_0 : sampleDriver.kxValue 0 = 0 := by
  unfold TmmDriver.kxValue
  have h : Real.sin sampleDriver.incident_angle = 0 := by
    rw [sampleDriver_angle]
    exact Real.sin_zero
  rw [h]
  simp

lemma spec_kz_value :
    specKzFormula 1 (5000000 * Real.pi) 0 = ((5000000 * Real.pi : ℝ) : ℂ) := by
  unfold specKzFormula
  have h : ((1 : ℂ) * ((5000000 * Real.pi : ℝ) : ℂ)) ^ 2 - (0 : ℂ) ^ 2
      = ((((5000000 * Real.pi) ^ 2 : ℝ)) : ℂ) := by
    push_cast
    ring
  rw [h, npSqrt_ofReal _ (by positivity), Real.sqrt_sq (by positivity)]

/-- C4: the wavevector resolver assigns k0 = 2π/λ and
kx = n_incident sin θ k0 as claimed, but the per-layer normal wavevector
it stores disagrees with the claimed kz = sqrt((n k0)² − kx²): at
wavelength index 0 (λ = 400 nm), layer 0 (n = 1), normal incidence, the
code's _kzl entry — built from the wavenumber 1/λ with the sine term not
squared together with its factor — is 2.5·10⁶, while the claimed formula
gives 5·10⁶·π ≈ 1.571·10⁷. -/
theorem C4_kz_formula_mismatch :
    (sampleDriver.computeSpectrum).1.k0_array = some sampleDriver.k0Value ∧
    (sampleDriver.computeSpectrum).1.kx_array = some sampleDriver.kxValue ∧
    (sampleDriver.computeSpectrum).1.kzl_array = some sampleDriver.kzlValue ∧
    sampleDriver.kzlValue 0 0 = ((2500000 : ℝ) : ℂ) ∧
    specKzFormula (sampleDriver.refractive_index_array 0 0)
        (sampleDriver.k0Value 0) (sampleDriver.kxValue 0)
      = ((5000000 * Real.pi : ℝ) : ℂ) ∧
    sampleDriver.kzlValue 0 0 ≠
      specKzFormula (sampleDriver.refractive_index_array 0 0)
        (sampleDriver.k0Value 0) (sampleDriver.kxValue 0) := by
  refine ⟨rfl, rfl, rfl, sampleDriver_kzl00, ?_, ?_⟩
  · rw [sampleDriver_ri00, sampleDriver_k0_0, sampleDriver_kx_0]
    exact spec_kz_value
  · rw [sampleDriver_kzl00, sampleDriver_ri00, sampleDriver_k0_0,
      sampleDriver_kx_0, spec_kz_value]
    intro h
    have h2 : (2500000 : ℝ) = 5000000 * Real.pi := Complex.ofReal_inj.mp h
    linarith [Real.pi_gt_three]

theorem C8_unguarded_singular_inverse_witness :
    (M2.mk 2 2 2 2).e00 * (M2.mk 2 2 2 2).e11 -
      (M2.mk 2 2 2 2).e01 * (M2.mk 2 2 2 2).e10 = 0 ∧
    dInvScalar (M2.mk 2 2 2 2) = NpComplex.nanc :=
  ⟨by norm_num, C8_unguarded_singular_inverse (M2.mk 2 2 2 2) (by norm_num)⟩

end Wpspec
